import Mathlib

/-!
Shallow embedding of the pdjr-ais-reporter plugin core
(`src/src/index.ts`, heartbeat-based revision, lines 788-1298).

Times are modelled as integers in milliseconds (JavaScript
`Date.getTime()` values); counters and byte totals as naturals.
-/

namespace AisReporter

/-- Hard-coded defaults from index.ts lines 810-813. -/
def DEFAULT_POSITION_UPDATE_INTERVAL : Nat := 5

/-- Default static data update interval, index.ts line 811. -/
def DEFAULT_STATIC_DATA_UPDATE_INTERVAL : Nat := 15

/-- Default expiry interval, index.ts line 812. -/
def DEFAULT_EXPIRY_INTERVAL : Nat := 15

/-! ## Scheduler firing decision (index.ts lines 1019-1039) -/

/-- Firing decision for one vessel class / report type, from the guard
`(mvPUI !== 0) && ((heartbeatCount % mvPUI) === 0)` at index.ts line 1027.
The ternary form at line 1029,
`(mvPUI === 0) ? false : ((heartbeatCount % mvPUI) === 0)`,
computes the same boolean. -/
def classShouldFire (interval heartbeatCount : Nat) : Bool :=
  (interval != 0) && (heartbeatCount % interval == 0)

/-- Resolution of the active interval from the configured interval
sequence and the runtime index, from index.ts lines 1021-1024:
`_.get(endpoint, 'myVessel.positionUpdateIntervals[mvIDX]', 0)`.
Lodash `_.get` returns the supplied default `0` whenever the index is
not a valid position of the array. -/
def resolveActiveInterval (intervals : List Nat) (idx : Nat) : Nat :=
  intervals.getD idx 0

/-! ## Vessel eligibility (index.ts lines 1085-1088 and 1141-1144)

`reportPosition` and `reportStatic` select vessels with two chained
filters.  The first keeps a vessel when the report flag matching its
identity class is set; the second keeps a vessel when, for SOME branch
whose report flag is set, the vessel has a position timestamp and the
fix is younger than that branch's expiry window.  The self branch
scales `expiryInterval` by 6000 ms, the others branch by 60000 ms, and
both use a strict comparison. -/

/-- First filter (index.ts lines 1086 and 1142):
`(reportSelf && (vessel.mmsi == myMMSI)) || (reportOthers && (vessel.mmsi != myMMSI))`. -/
def classFilter (reportSelf reportOthers isSelf : Bool) : Bool :=
  (reportSelf && isSelf) || (reportOthers && !isSelf)

/-- Second filter (index.ts lines 1087 and 1143):
`(reportSelf && hasTs && fixTime > now - expiryInterval * 6000) ||
 (reportOthers && hasTs && fixTime > now - expiryInterval * 60000)`,
where `hasTs` is the truthiness of `navigation.position.timestamp` and
`fixTime` is its `getTime()` value. -/
def freshnessFilter (reportSelf reportOthers hasTs : Bool)
    (fixTime now expirySelf expiryOthers : Int) : Bool :=
  (reportSelf && hasTs && decide (fixTime > now - expirySelf * 6000)) ||
  (reportOthers && hasTs && decide (fixTime > now - expiryOthers * 60000))

/-- A vessel reaches the report-building body exactly when it passes
both filters (index.ts lines 1085-1088, identically 1141-1144). -/
def isEligible (reportSelf reportOthers isSelf hasTs : Bool)
    (fixTime now expirySelf expiryOthers : Int) : Bool :=
  classFilter reportSelf reportOthers isSelf &&
  freshnessFilter reportSelf reportOthers hasTs fixTime now expirySelf expiryOthers

/-! ## Sentence transmission and per-vessel report steps -/

/-- Number of bytes reported transmitted for one sentence, the return
value of `sendReportMsg` (index.ts lines 1226-1230):
`socket.send(msg + '\n', 0, msg.length + 1, ...); return msg.length + 1`.
The UDP side effect is external and not modelled. -/
def sendReportMsg (msg : String) : Nat := msg.length + 1

/-- The `ReportStatistics` record built by the generators
(index.ts lines 1080 and 1136). -/
structure ReportStatistics where
  myVesselCount : Nat
  myVesselBytes : Nat
  otherVesselsCount : Nat
  otherVesselsBytes : Nat
deriving DecidableEq

/-- The bucket update shared by the generators (for example index.ts
lines 1106-1113): when `reportSelf` is set and the vessel is self, the
`myVessel` bucket receives the count and bytes, otherwise the
`otherVessels` bucket does. -/
def addToBucket (rs : ReportStatistics) (reportSelf isSelf : Bool)
    (count bytes : Nat) : ReportStatistics :=
  if reportSelf && isSelf then
    { rs with myVesselCount := rs.myVesselCount + count,
              myVesselBytes := rs.myVesselBytes + bytes }
  else
    { rs with otherVesselsCount := rs.otherVesselsCount + count,
              otherVesselsBytes := rs.otherVesselsBytes + bytes }

/-- Per-vessel step of `reportPosition` (index.ts lines 1103-1120).
`encoded` is `some sentence` when `new AisEncode(...)` produced a valid
message, `none` otherwise (in which case the code throws and the
per-vessel catch leaves the statistics untouched).  Returns the updated
statistics and the list of transmitted sentences. -/
def positionVesselStep (rs : ReportStatistics) (reportSelf isSelf : Bool)
    (encoded : Option String) : ReportStatistics × List String :=
  match encoded with
  | none => (rs, [])
  | some m => (addToBucket rs reportSelf isSelf 1 (sendReportMsg m), [m])

/-- Per-vessel step of `reportStatic` for a class A vessel
(index.ts lines 1164-1180): one sentence, one count, length + 1 bytes;
an invalid encode throws and leaves the statistics untouched. -/
def staticVesselStepA (rs : ReportStatistics) (reportSelf isSelf : Bool)
    (encoded : Option String) : ReportStatistics × List String :=
  match encoded with
  | none => (rs, [])
  | some m => (addToBucket rs reportSelf isSelf 1 (sendReportMsg m), [m])

/-- Per-vessel step of `reportStatic` for a class B vessel
(index.ts lines 1181-1205): part 0 is encoded first; only if it is
valid is part 1 encoded; only if BOTH are valid are the two sentences
sent and one report counted with the combined byte total.  Either
failure throws (lines 1201 and 1204), caught per vessel, so nothing is
transmitted and the statistics are untouched. -/
def staticVesselStepB (rs : ReportStatistics) (reportSelf isSelf : Bool)
    (part0 part1 : Option String) : ReportStatistics × List String :=
  match part0 with
  | none => (rs, [])
  | some m =>
    match part1 with
    | none => (rs, [])
    | some mB =>
      (addToBucket rs reportSelf isSelf 1 (sendReportMsg m + sendReportMsg mB), [m, mB])

/-! ## Statistics aggregation (index.ts lines 1047-1066) -/

/-- A per-report-type statistics record, created at index.ts
lines 967-968. -/
structure ReportTypeStats where
  lastReportTimestamp : Option Int
  totalBytesTransmitted : Nat
  bytesTransmittedInLastHour : List Nat
  bytesTransmittedInLastDay : List Nat
  totalReportsTransmitted : Nat
  reportsTransmittedInLastHour : List Nat
  reportsTransmittedInLastDay : List Nat
deriving DecidableEq

/-- Initial per-report-type statistics
(index.ts lines 967-968: zero totals, 60- and 24-slot zero vectors,
no last report timestamp). -/
def initReportTypeStats : ReportTypeStats :=
  { lastReportTimestamp := none,
    totalBytesTransmitted := 0,
    bytesTransmittedInLastHour := List.replicate 60 0,
    bytesTransmittedInLastDay := List.replicate 24 0,
    totalReportsTransmitted := 0,
    reportsTransmittedInLastHour := List.replicate 60 0,
    reportsTransmittedInLastDay := List.replicate 24 0 }

/-- `updateVector` (index.ts lines 1057-1066): add `value` into slot 0,
then, when `heartbeat` is truthy (nonzero) and divisible by `rollover`,
return `vector.slice(0, rollover - 1)` with a fresh `0` unshifted at the
front; otherwise return the slot-0-updated vector.  The only call sites
pass vectors of length `rollover` with `rollover` 60 or 24, so the
`rollover = 0` and empty-vector corners are unreachable. -/
def updateVector (vector : List Nat) (rollover heartbeat value : Nat) : List Nat :=
  let v := match vector with
    | [] => []
    | x :: xs => (x + value) :: xs
  if heartbeat != 0 && heartbeat % rollover == 0 then
    0 :: v.take (rollover - 1)
  else v

/-- `updateReportStatistics` (index.ts lines 1047-1056): stamp the last
report time, add the combined counts and bytes into the cumulative
totals, and push the combined values through the four rolling vectors. -/
def updateReportStatistics (s : ReportTypeStats) (r : ReportStatistics)
    (heartbeatCount : Nat) (now : Int) : ReportTypeStats :=
  { lastReportTimestamp := some now,
    totalReportsTransmitted :=
      s.totalReportsTransmitted + (r.myVesselCount + r.otherVesselsCount),
    totalBytesTransmitted :=
      s.totalBytesTransmitted + (r.myVesselBytes + r.otherVesselsBytes),
    reportsTransmittedInLastHour :=
      updateVector s.reportsTransmittedInLastHour 60 heartbeatCount
        (r.myVesselCount + r.otherVesselsCount),
    bytesTransmittedInLastHour :=
      updateVector s.bytesTransmittedInLastHour 60 heartbeatCount
        (r.myVesselBytes + r.otherVesselsBytes),
    reportsTransmittedInLastDay :=
      updateVector s.reportsTransmittedInLastDay 24 heartbeatCount
        (r.myVesselCount + r.otherVesselsCount),
    bytesTransmittedInLastDay :=
      updateVector s.bytesTransmittedInLastDay 24 heartbeatCount
        (r.myVesselBytes + r.otherVesselsBytes) }

/-- The endpoint-level statistics block (index.ts lines 964-969). -/
structure EndpointStatistics where
  started : Int
  totalBytesTransmitted : Nat
  position : ReportTypeStats
  static : ReportTypeStats
deriving DecidableEq

/-- Initial endpoint statistics (index.ts lines 964-969):
`started = Date.now()`, endpoint-level `totalBytesTransmitted = 0`,
and fresh per-report-type records. -/
def initEndpointStatistics (now : Int) : EndpointStatistics :=
  { started := now,
    totalBytesTransmitted := 0,
    position := initReportTypeStats,
    static := initReportTypeStats }

/-- Inputs of one heartbeat tick for one endpoint: the four resolved
intervals (index.ts lines 1021-1024) and the `ReportStatistics` the two
generators would return if invoked (their values depend on external
vessel data, so they are inputs here). -/
structure TickInput where
  mvPUI : Nat
  mvSUI : Nat
  ovPUI : Nat
  ovSUI : Nat
  posResult : ReportStatistics
  staticResult : ReportStatistics
  heartbeatCount : Nat
  now : Int

/-- Effect of one heartbeat tick on one endpoint's statistics
(index.ts lines 1027-1039): when either class's position interval
fires, `reportPosition` is called and its result folded into
`statistics.position`; likewise for static.  The computed `totalBytes`
local variable (lines 1031 and 1038) is never stored anywhere, so no
other field of the statistics block is written. -/
def processEndpointTick (stats : EndpointStatistics) (t : TickInput) :
    EndpointStatistics :=
  let stats :=
    if classShouldFire t.mvPUI t.heartbeatCount || classShouldFire t.ovPUI t.heartbeatCount then
      { stats with position :=
          updateReportStatistics stats.position t.posResult t.heartbeatCount t.now }
    else stats
  if classShouldFire t.mvSUI t.heartbeatCount || classShouldFire t.ovSUI t.heartbeatCount then
    { stats with static :=
        updateReportStatistics stats.static t.staticResult t.heartbeatCount t.now }
  else stats

/-- Fold a sequence of heartbeat ticks over an endpoint's statistics. -/
def runEndpointTicks (ticks : List TickInput) (stats : EndpointStatistics) :
    EndpointStatistics :=
  ticks.foldl processEndpointTick stats

/-- One tick's inputs as seen by a single `ReportTypeStats` record. -/
structure RTTick where
  result : ReportStatistics
  heartbeatCount : Nat
  now : Int

/-- Fold a sequence of `updateReportStatistics` applications over one
per-report-type statistics record. -/
def runReportTypeStats (ticks : List RTTick) (s : ReportTypeStats) :
    ReportTypeStats :=
  ticks.foldl (fun s t => updateReportStatistics s t.result t.heartbeatCount t.now) s

/-- The slice of the `/status` response built per endpoint by
`handleRoutes` (index.ts lines 1250-1276) that the claims are about:
the endpoint-level byte total (line 1256) and the per-report-type
totals and hour-window sums. -/
structure StatusSnapshot where
  totalBytesTransmitted : Nat
  positionTotalReportsTransmitted : Nat
  positionTotalBytesTransmitted : Nat
  positionReportsTransmittedInLastHour : Nat
  staticTotalReportsTransmitted : Nat
  staticTotalBytesTransmitted : Nat
  staticReportsTransmittedInLastHour : Nat
deriving DecidableEq

/-- Status projection of one endpoint's statistics
(index.ts lines 1254-1275); rolling windows are reduced to their sum at
read time. -/
def statusSnapshot (e : EndpointStatistics) : StatusSnapshot :=
  { totalBytesTransmitted := e.totalBytesTransmitted,
    positionTotalReportsTransmitted := e.position.totalReportsTransmitted,
    positionTotalBytesTransmitted := e.position.totalBytesTransmitted,
    positionReportsTransmittedInLastHour := e.position.reportsTransmittedInLastHour.sum,
    staticTotalReportsTransmitted := e.static.totalReportsTransmitted,
    staticTotalBytesTransmitted := e.static.totalBytesTransmitted,
    staticReportsTransmittedInLastHour := e.static.reportsTransmittedInLastHour.sum }

/-! ## Configuration normalization (index.ts lines 938-999)

Raw option objects are modelled as association lists from property
names to configuration values (a number or an array of numbers).  A
JavaScript array literal with an elided element, such as the
`[(option.myVessel || \x7b\x7d), option, (options.myVessel || \x7b\x7d), , options]`
at index.ts line 957, is a sparse array whose hole reads as
`undefined`; a hole in the lookup chain is modelled as `none`, and
reading a property of it raises a TypeError, modelled with `Except`. -/

/-- A configuration leaf value: a raw scalar or an array of numbers. -/
inductive ConfigValue where
  | scalar : Nat → ConfigValue
  | arr : List Nat → ConfigValue
deriving DecidableEq

/-- A raw configuration object: named properties with leaf values. -/
def ConfigObject : Type := List (String × ConfigValue)

/-- JavaScript property read `o[name]`: `none` models `undefined`. -/
def getProp (o : ConfigObject) (name : String) : Option ConfigValue :=
  (o.find? (fun p => p.1 == name)).map (fun p => p.2)

/-- `getOption` (index.ts lines 973-985): scan the object chain for the
first defined occurrence of `name`; an empty chain yields the fallback
(`none` models a fallback of `undefined`).  A hole in the chain makes
`objects[0][name]` a property read on `undefined`, which throws. -/
def getOption (objects : List (Option ConfigObject)) (name : String)
    (fallback : Option ConfigValue) : Except String (Option ConfigValue) :=
  match objects with
  | [] => .ok fallback
  | none :: _ => .error "TypeError: cannot read properties of undefined"
  | some o :: rest =>
    match getProp o name with
    | some v => .ok (some v)
    | none => getOption rest name fallback

/-- `getOptionArray` (index.ts lines 986-998): like `getOption` but a
found raw scalar is wrapped into a single-element array. -/
def getOptionArray (objects : List (Option ConfigObject)) (name : String)
    (fallback : List Nat) : Except String (List Nat) :=
  match objects with
  | [] => .ok fallback
  | none :: _ => .error "TypeError: cannot read properties of undefined"
  | some o :: rest =>
    match getProp o name with
    | some (.arr a) => .ok a
    | some (.scalar s) => .ok [s]
    | none => getOptionArray rest name fallback

/-- One entry of the raw `options.endpoints` array.  `props` holds the
endpoint-level leaf properties; `myVessel` and `otherVessels` are the
optional class-specific sub-objects. -/
structure EndpointOption where
  name : Option String
  ipAddress : Option String
  port : Option Nat
  myVessel : Option ConfigObject
  otherVessels : Option ConfigObject
  props : ConfigObject

/-- The raw global options object (minus its `endpoints` array). -/
structure GlobalOptions where
  myVessel : Option ConfigObject
  otherVessels : Option ConfigObject
  props : ConfigObject

/-- A normalized per-class configuration block
(index.ts lines 954-963). -/
structure VesselClassConf where
  expiryInterval : Option ConfigValue
  positionUpdateIntervals : List Nat
  staticUpdateIntervals : List Nat
  updateIntervalIndexPath : Option ConfigValue
deriving DecidableEq

/-- A normalized endpoint (index.ts lines 950-970). -/
structure EndpointConf where
  name : String
  ipAddress : String
  port : Nat
  myVessel : VesselClassConf
  otherVessels : VesselClassConf
  statistics : EndpointStatistics

/-- JavaScript truthiness of an optional string. -/
def truthyStr : Option String → Bool
  | none => false
  | some s => !s.isEmpty

/-- JavaScript truthiness of an optional number. -/
def truthyNat : Option Nat → Bool
  | none => false
  | some n => n != 0

/-- Normalization of one endpoint entry inside `makePluginConfiguration`
(index.ts lines 945-970).  Resolution chains follow lines 955-963:
endpoint class object, endpoint object, global class object, global
object.  The chain for `myVessel.staticUpdateIntervals` (line 957)
contains an extra sparse-array hole between the global class object and
the global object, modelled by the `none` element.  `now` is the
`Date.now()` read at line 965. -/
def makeEndpoint (option : EndpointOption) (options : GlobalOptions)
    (now : Int) : Except String EndpointConf :=
  if !truthyStr option.ipAddress then
    .error "endpoint has missing ipAddress property"
  else if !truthyNat option.port then
    .error "endpoint has missing port property"
  else do
    let mvChain : List (Option ConfigObject) :=
      [some (option.myVessel.getD []), some option.props,
       some (options.myVessel.getD []), some options.props]
    let mvStaticChain : List (Option ConfigObject) :=
      [some (option.myVessel.getD []), some option.props,
       some (options.myVessel.getD []), none, some options.props]
    let ovChain : List (Option ConfigObject) :=
      [some (option.otherVessels.getD []), some option.props,
       some (options.otherVessels.getD []), some options.props]
    let mvExpiry ← getOption mvChain "expiryInterval"
      (some (.scalar DEFAULT_EXPIRY_INTERVAL))
    let mvPUI ← getOptionArray mvChain "positionUpdateInterval"
      [DEFAULT_POSITION_UPDATE_INTERVAL]
    let mvSUI ← getOptionArray mvStaticChain "staticUpdateInterval"
      [DEFAULT_STATIC_DATA_UPDATE_INTERVAL]
    let mvPath ← getOption mvChain "updateIntervalIndexPath" none
    let ovExpiry ← getOption ovChain "expiryInterval"
      (some (.scalar DEFAULT_EXPIRY_INTERVAL))
    let ovPUI ← getOptionArray ovChain "positionUpdateInterval"
      [DEFAULT_POSITION_UPDATE_INTERVAL]
    let ovSUI ← getOptionArray ovChain "staticUpdateInterval"
      [DEFAULT_STATIC_DATA_UPDATE_INTERVAL]
    let ovPath ← getOption ovChain "updateIntervalIndexPath" none
    let ipAddress := option.ipAddress.getD ""
    .ok
      { name := if truthyStr option.name then option.name.getD "" else ipAddress,
        ipAddress := ipAddress,
        port := option.port.getD 0,
        myVessel :=
          { expiryInterval := mvExpiry,
            positionUpdateIntervals := mvPUI,
            staticUpdateIntervals := mvSUI,
            updateIntervalIndexPath := mvPath },
        otherVessels :=
          { expiryInterval := ovExpiry,
            positionUpdateIntervals := ovPUI,
            staticUpdateIntervals := ovSUI,
            updateIntervalIndexPath := ovPath },
        statistics := initEndpointStatistics now }

/-! ## Helper facts about report statistics -/

/-- Combined report count over both buckets. -/
def combinedCount (rs : ReportStatistics) : Nat :=
  rs.myVesselCount + rs.otherVesselsCount

/-- Combined byte count over both buckets. -/
def combinedBytes (rs : ReportStatistics) : Nat :=
  rs.myVesselBytes + rs.otherVesselsBytes

/-! ## Claim theorems -/

/-- C1: for every tick counter `t` and resolved update interval `i`,
if `i > 0` the report type fires on tick `t` iff `t mod i = 0`, and if
`i = 0` it never fires. -/
theorem classShouldFire_mod_spec (i t : Nat) :
    (0 < i → (classShouldFire i t = true ↔ t % i = 0)) ∧
    classShouldFire 0 t = false := by
  refine ⟨fun hi => ?_, by simp [classShouldFire]⟩
  simp [classShouldFire]
  omega

/-- Witness for C1 at interval 2, tick 4. -/
theorem classShouldFire_mod_spec_witness :
    0 < 2 ∧ (classShouldFire 2 4 = true ↔ 4 % 2 = 0) :=
  ⟨by decide, (classShouldFire_mod_spec 2 4).1 (by decide)⟩

/-- C2 counterexample: the eligibility predicate does not implement
`now - fixTimestamp ≤ expiryInterval`.  An others-class vessel with
report-others set, a fix of age 30000 and expiry interval 1 is
eligible in the code (the others branch compares against
`expiryInterval * 60000`), although `30000 - 0 ≤ 1` is false. -/
theorem isEligible_le_expiry_cex :
    isEligible false true false true 0 30000 1 1 = true ∧
    ¬((30000 : Int) - 0 ≤ 1) := by
  decide

/-- C2 amended: eligibility is the class filter (report flag matching
the identity class) together with a flag-keyed freshness filter using a
STRICT bound: the self branch requires `now - fixTime < expiry * 6000`
and the others branch `now - fixTime < expiry * 60000`; a fix whose age
exactly equals the scaled window is ineligible and one inside the
window is eligible. -/
theorem isEligible_characterization (hasTs : Bool) (fixTime now eS eO : Int) :
    (isEligible true false true hasTs fixTime now eS eO = true ↔
      (hasTs = true ∧ now - fixTime < eS * 6000)) ∧
    (isEligible false true false hasTs fixTime now eS eO = true ↔
      (hasTs = true ∧ now - fixTime < eO * 60000)) ∧
    isEligible true false false hasTs fixTime now eS eO = false ∧
    isEligible false true true hasTs fixTime now eS eO = false ∧
    isEligible true false true true (now - eS * 6000) now eS eO = false ∧
    isEligible true false true true (now - eS * 6000 + 1) now eS eO = true := by
  cases hasTs <;>
    simp [isEligible, classFilter, freshnessFilter] <;>
    omega

/-- C3: a class-B static report transmits nothing and changes no
statistics when either part fails to encode. -/
theorem staticVesselStepB_partial_failure (rs : ReportStatistics)
    (reportSelf isSelf : Bool) (part0 part1 : Option String)
    (h : part0 = none ∨ part1 = none) :
    staticVesselStepB rs reportSelf isSelf part0 part1 = (rs, []) := by
  rcases h with h | h
  · subst h; rfl
  · subst h; cases part0 <;> rfl

/-- Witness for C3: part 0 succeeds, part 1 fails, nothing happens. -/
theorem staticVesselStepB_partial_failure_witness :
    ((some "A" : Option String) = none ∨ (none : Option String) = none) ∧
    staticVesselStepB ⟨0, 0, 0, 0⟩ true true (some "A") none = (⟨0, 0, 0, 0⟩, []) :=
  ⟨Or.inr rfl,
   staticVesselStepB_partial_failure ⟨0, 0, 0, 0⟩ true true (some "A") none (Or.inr rfl)⟩

/-- C6: every transmitted sentence contributes its length plus one
framing byte, and each successfully reported vessel adds exactly one
report count, whatever the number of sentences: a class-B static
report adds one count and `lenA + lenB + 2` bytes, a class-A static or
position report one count and `len + 1` bytes, and the increments land
in exactly one bucket. -/
theorem report_accounting (rs : ReportStatistics) (reportSelf isSelf : Bool)
    (m mB p : String) :
    (staticVesselStepB rs reportSelf isSelf (some m) (some mB)).2 = [m, mB] ∧
    combinedCount (staticVesselStepB rs reportSelf isSelf (some m) (some mB)).1 =
      combinedCount rs + 1 ∧
    combinedBytes (staticVesselStepB rs reportSelf isSelf (some m) (some mB)).1 =
      combinedBytes rs +
        (((staticVesselStepB rs reportSelf isSelf (some m) (some mB)).2).map
          (fun s => s.length + 1)).sum ∧
    (((staticVesselStepB rs reportSelf isSelf (some m) (some mB)).2).map
      (fun s => s.length + 1)).sum = m.length + mB.length + 2 ∧
    (positionVesselStep rs reportSelf isSelf (some p)).2 = [p] ∧
    combinedCount (positionVesselStep rs reportSelf isSelf (some p)).1 =
      combinedCount rs + 1 ∧
    combinedBytes (positionVesselStep rs reportSelf isSelf (some p)).1 =
      combinedBytes rs + (p.length + 1) ∧
    (staticVesselStepA rs reportSelf isSelf (some p)).2 = [p] ∧
    combinedCount (staticVesselStepA rs reportSelf isSelf (some p)).1 =
      combinedCount rs + 1 ∧
    combinedBytes (staticVesselStepA rs reportSelf isSelf (some p)).1 =
      combinedBytes rs + (p.length + 1) ∧
    (staticVesselStepB rs true true (some m) (some mB)).1.otherVesselsCount =
      rs.otherVesselsCount ∧
    (staticVesselStepB rs true true (some m) (some mB)).1.otherVesselsBytes =
      rs.otherVesselsBytes ∧
    (staticVesselStepB rs false isSelf (some m) (some mB)).1.myVesselCount =
      rs.myVesselCount ∧
    (staticVesselStepB rs false isSelf (some m) (some mB)).1.myVesselBytes =
      rs.myVesselBytes := by
  cases h : (reportSelf && isSelf) <;>
    simp [staticVesselStepB, staticVesselStepA, positionVesselStep,
      addToBucket, sendReportMsg, combinedCount, combinedBytes, h] <;>
    omega

/-- C8 counterexample: with interval sequence `[5]` and runtime index 3
the resolved interval is the lodash default 0, not the last element 5;
so nothing fires at tick 5, although the claimed clamping to the last
valid index would fire there. -/
theorem resolveActiveInterval_no_clamp_cex :
    resolveActiveInterval [5] 3 = 0 ∧
    ([5] : List Nat).getLastD 0 = 5 ∧
    classShouldFire (resolveActiveInterval [5] 3) 5 = false ∧
    classShouldFire (([5] : List Nat).getLastD 0) 5 = true := by
  decide

/-- C8 amended: when the runtime-resolved index is out of range for the
interval sequence, the resolved interval is the lodash default 0, so
the report type never fires on any tick; no clamping occurs. -/
theorem resolveActiveInterval_out_of_range (intervals : List Nat) (idx t : Nat)
    (h : intervals.length ≤ idx) :
    resolveActiveInterval intervals idx = 0 ∧
    classShouldFire (resolveActiveInterval intervals idx) t = false := by
  have h0 : resolveActiveInterval intervals idx = 0 := by
    simp [resolveActiveInterval, List.getD_eq_getElem?_getD,
      List.getElem?_eq_none h]
  exact ⟨h0, by simp [h0, classShouldFire]⟩

/-- Witness for C8 amended at sequence `[5]`, index 3, tick 7. -/
theorem resolveActiveInterval_out_of_range_witness :
    ([5] : List Nat).length ≤ 3 ∧
    (resolveActiveInterval [5] 3 = 0 ∧
      classShouldFire (resolveActiveInterval [5] 3) 7 = false) :=
  ⟨by decide, resolveActiveInterval_out_of_range [5] 3 7 (by decide)⟩

/-- Helper: the sum of a list's prefix is at most its sum. -/
theorem sum_take_le (l : List Nat) (k : Nat) : (l.take k).sum ≤ l.sum := by
  have hsplit := List.sum_take_add_sum_drop l k
  omega

/-- Helper: splitting a nonempty list at its last element: the prefix
sum plus the last element is the whole sum. -/
theorem sum_take_pred_add_getD (w : List Nat) (hw : w ≠ []) :
    (w.take (w.length - 1)).sum + w.getD (w.length - 1) 0 = w.sum := by
  induction w with
  | nil => exact absurd rfl hw
  | cons x xs ih =>
    cases xs with
    | nil => simp [List.getD]
    | cons y t =>
      have hx := ih (by simp)
      simp only [List.length_cons, Nat.add_sub_cancel, List.take_succ_cons,
        List.sum_cons, List.getD_cons_succ] at *
      omega

/-- Helper: `updateVector` preserves the vector length when the input
has length `rollover > 0`. -/
theorem updateVector_length (v : List Nat) (n h val : Nat)
    (hv : v.length = n) (hn : 0 < n) :
    (updateVector v n h val).length = n := by
  cases v with
  | nil => simp at hv; omega
  | cons x xs =>
    simp only [updateVector]
    split
    · simp only [List.length_cons, List.length_take]
      simp only [List.length_cons] at hv
      omega
    · simpa using hv

/-- Helper: one `updateVector` call grows the vector sum by at most the
added value. -/
theorem updateVector_sum_le (v : List Nat) (n h val : Nat) :
    (updateVector v n h val).sum ≤ v.sum + val := by
  cases v with
  | nil =>
    simp only [updateVector]
    split <;> simp
  | cons x xs =>
    simp only [updateVector]
    split
    · have htake := sum_take_le ((x + val) :: xs) (n - 1)
      simp only [List.sum_cons] at *
      omega
    · simp only [List.sum_cons]
      omega

/-- C4 counterexample: at tick 0 the rolling vector does NOT rotate
although `0 mod 60 = 0` (the guard `(heartbeat) && ...` is falsy at 0):
the result keeps sixty slots with the added value still in front, with
no fresh zero slot inserted. -/
theorem updateVector_tick0_no_rotation_cex :
    updateVector (List.replicate 60 5) 60 0 2 = 7 :: List.replicate 59 5 ∧
    (0 : Nat) % 60 = 0 ∧
    (7 :: List.replicate 59 5).headD 0 ≠ 0 := by
  decide

/-- C4 amended: the update adds the tick's value into slot 0, and the
vector rotates (drop the oldest slot, insert a fresh zero at the front)
exactly when the tick counter is NONZERO and divisible by the ring
size; the length always stays at the ring size, and in a rotation only
the oldest slot's value leaves the sum. -/
theorem updateVector_rotation_spec (v : List Nat) (n h val : Nat)
    (hv : v.length = n) (hn : 0 < n) :
    (updateVector v n h val).length = n ∧
    (¬(h ≠ 0 ∧ h % n = 0) →
      updateVector v n h val = (v.headD 0 + val) :: v.tail ∧
      (updateVector v n h val).sum = v.sum + val) ∧
    ((h ≠ 0 ∧ h % n = 0) →
      (updateVector v n h val).headD 1 = 0 ∧
      updateVector v n h val = 0 :: ((v.headD 0 + val) :: v.tail).take (n - 1) ∧
      (updateVector v n h val).sum +
        ((v.headD 0 + val) :: v.tail).getD (n - 1) 0 = v.sum + val) := by
  refine ⟨updateVector_length v n h val hv hn, ?_, ?_⟩
  · intro hc
    cases v with
    | nil => simp at hv; omega
    | cons x xs =>
      have hcond : (h != 0 && h % n == 0) = false := by
        simp only [Bool.and_eq_false_iff, bne_eq_false_iff_eq, beq_eq_false_iff_ne]
        omega
      simp [updateVector, hcond]
      omega
  · intro hc
    cases v with
    | nil => simp at hv; omega
    | cons x xs =>
      have hcond : (h != 0 && h % n == 0) = true := by
        simp only [Bool.and_eq_true, bne_iff_ne, beq_iff_eq]
        exact hc
      have hw : ((x + val) :: xs) ≠ [] := by simp
      have hlen : ((x + val) :: xs).length = n := by
        simpa using hv
      have hsum := sum_take_pred_add_getD ((x + val) :: xs) hw
      rw [hlen] at hsum
      refine ⟨?_, ?_, ?_⟩
      · simp [updateVector, hcond]
      · simp [updateVector, hcond]
      · simp only [updateVector, hcond, if_true, List.headD_cons, List.sum_cons,
          List.tail_cons, Bool.and_self]
        simp only [List.sum_cons] at hsum
        omega

/-- Witness for C4 amended at vector `[1, 2, 3]`, ring size 3, tick 3. -/
theorem updateVector_rotation_spec_witness :
    ([1, 2, 3] : List Nat).length = 3 ∧ 0 < 3 ∧
    ((updateVector [1, 2, 3] 3 3 2).length = 3 ∧
      (¬(3 ≠ 0 ∧ 3 % 3 = 0) →
        updateVector [1, 2, 3] 3 3 2 = (([1, 2, 3] : List Nat).headD 0 + 2) :: ([1, 2, 3] : List Nat).tail ∧
        (updateVector [1, 2, 3] 3 3 2).sum = ([1, 2, 3] : List Nat).sum + 2) ∧
      ((3 ≠ 0 ∧ 3 % 3 = 0) →
        (updateVector [1, 2, 3] 3 3 2).headD 1 = 0 ∧
        updateVector [1, 2, 3] 3 3 2 =
          0 :: ((([1, 2, 3] : List Nat).headD 0 + 2) :: ([1, 2, 3] : List Nat).tail).take (3 - 1) ∧
        (updateVector [1, 2, 3] 3 3 2).sum +
          ((([1, 2, 3] : List Nat).headD 0 + 2) :: ([1, 2, 3] : List Nat).tail).getD (3 - 1) 0 =
          ([1, 2, 3] : List Nat).sum + 2)) :=
  ⟨rfl, by decide, updateVector_rotation_spec [1, 2, 3] 3 3 2 rfl (by decide)⟩

/-- The invariant of a per-report-type statistics record: the hour
window has its sixty slots and its sum never exceeds the cumulative
report total. -/
def statsInv (s : ReportTypeStats) : Prop :=
  s.reportsTransmittedInLastHour.length = 60 ∧
  s.reportsTransmittedInLastHour.sum ≤ s.totalReportsTransmitted

instance (s : ReportTypeStats) : Decidable (statsInv s) := by
  unfold statsInv
  infer_instance

/-- Helper: one `updateReportStatistics` call preserves the invariant
and never decreases the cumulative totals. -/
theorem updateReportStatistics_step (s : ReportTypeStats) (r : ReportStatistics)
    (hb : Nat) (now : Int) (hinv : statsInv s) :
    statsInv (updateReportStatistics s r hb now) ∧
    s.totalReportsTransmitted ≤ (updateReportStatistics s r hb now).totalReportsTransmitted ∧
    s.totalBytesTransmitted ≤ (updateReportStatistics s r hb now).totalBytesTransmitted := by
  obtain ⟨hlen, hsum⟩ := hinv
  refine ⟨⟨?_, ?_⟩, ?_, ?_⟩
  · exact updateVector_length _ 60 hb _ hlen (by omega)
  · have hle := updateVector_sum_le s.reportsTransmittedInLastHour 60 hb
      (r.myVesselCount + r.otherVesselsCount)
    simp only [updateReportStatistics]
    omega
  · simp only [updateReportStatistics]
    omega
  · simp only [updateReportStatistics]
    omega

/-- C5: across every sequence of ticks, the cumulative report and byte
totals are monotonically non-decreasing, and from any state satisfying
the invariant (in particular the initial all-zero state) the sum of the
hour window stays at most the cumulative report total. -/
theorem runReportTypeStats_monotone_inv (ticks : List RTTick)
    (s0 : ReportTypeStats) (hinv : statsInv s0) :
    statsInv (runReportTypeStats ticks s0) ∧
    s0.totalReportsTransmitted ≤ (runReportTypeStats ticks s0).totalReportsTransmitted ∧
    s0.totalBytesTransmitted ≤ (runReportTypeStats ticks s0).totalBytesTransmitted := by
  induction ticks generalizing s0 with
  | nil => exact ⟨hinv, Nat.le_refl _, Nat.le_refl _⟩
  | cons t ts ih =>
    have hstep := updateReportStatistics_step s0 t.result t.heartbeatCount t.now hinv
    have hrest := ih (updateReportStatistics s0 t.result t.heartbeatCount t.now) hstep.1
    simp only [runReportTypeStats, List.foldl_cons] at *
    exact ⟨hrest.1, Nat.le_trans hstep.2.1 hrest.2.1, Nat.le_trans hstep.2.2 hrest.2.2⟩

/-- Witness for C5: two concrete ticks from the initial record. -/
theorem runReportTypeStats_monotone_inv_witness :
    statsInv initReportTypeStats ∧
    (statsInv (runReportTypeStats [⟨⟨1, 10, 2, 20⟩, 0, 5⟩, ⟨⟨0, 0, 3, 33⟩, 1, 9⟩] initReportTypeStats) ∧
      initReportTypeStats.totalReportsTransmitted ≤
        (runReportTypeStats [⟨⟨1, 10, 2, 20⟩, 0, 5⟩, ⟨⟨0, 0, 3, 33⟩, 1, 9⟩] initReportTypeStats).totalReportsTransmitted ∧
      initReportTypeStats.totalBytesTransmitted ≤
        (runReportTypeStats [⟨⟨1, 10, 2, 20⟩, 0, 5⟩, ⟨⟨0, 0, 3, 33⟩, 1, 9⟩] initReportTypeStats).totalBytesTransmitted) :=
  ⟨by decide,
   runReportTypeStats_monotone_inv [⟨⟨1, 10, 2, 20⟩, 0, 5⟩, ⟨⟨0, 0, 3, 33⟩, 1, 9⟩]
     initReportTypeStats (by decide)⟩

/-- Helper: no heartbeat tick writes the endpoint-level byte total or
start timestamp. -/
theorem runEndpointTicks_frame (ticks : List TickInput) (stats : EndpointStatistics) :
    (runEndpointTicks ticks stats).totalBytesTransmitted = stats.totalBytesTransmitted ∧
    (runEndpointTicks ticks stats).started = stats.started := by
  induction ticks generalizing stats with
  | nil => exact ⟨rfl, rfl⟩
  | cons t ts ih =>
    have hstep :
        (processEndpointTick stats t).totalBytesTransmitted = stats.totalBytesTransmitted ∧
        (processEndpointTick stats t).started = stats.started := by
      simp only [processEndpointTick]
      split <;> split <;> exact ⟨rfl, rfl⟩
    have hrest := ih (processEndpointTick stats t)
    simp only [runEndpointTicks, List.foldl_cons] at *
    omega

/-- C10: a heartbeat tick never mutates the endpoint-level
`totalBytesTransmitted` field (only the per-report-type records under
`position` and `static` change), so it stays at its initial value 0 for
the process lifetime and the status snapshot always reports 0 for it. -/
theorem endpoint_totalBytes_never_written (ticks : List TickInput)
    (started : Int) (stats : EndpointStatistics) (t : TickInput) :
    (processEndpointTick stats t).totalBytesTransmitted = stats.totalBytesTransmitted ∧
    (runEndpointTicks ticks (initEndpointStatistics started)).totalBytesTransmitted = 0 ∧
    (statusSnapshot (runEndpointTicks ticks (initEndpointStatistics started))).totalBytesTransmitted = 0 := by
  have hframe := runEndpointTicks_frame ticks (initEndpointStatistics started)
  refine ⟨?_, hframe.1, hframe.1⟩
  simp only [processEndpointTick]
  split <;> split <;> rfl

/-- Raw global options used by the C7 failing input: only a global
`staticUpdateInterval` is configured. -/
def globalStaticOnlyOptions : GlobalOptions :=
  { myVessel := none, otherVessels := none,
    props := [("staticUpdateInterval", ConfigValue.scalar 10)] }

/-- A raw endpoint entry carrying only the mandatory address and port. -/
def bareEndpointOption : EndpointOption :=
  { name := none, ipAddress := some "192.168.1.1", port := some 12345,
    myVessel := none, otherVessels := none, props := [] }

/-- C7: with only a global `staticUpdateInterval` configured, resolving
`myVessel.staticUpdateIntervals` for a bare endpoint falls through the
first three levels and hits the sparse-array hole of index.ts line 957,
so normalization throws a TypeError instead of resolving to the global
value; the same chain without the hole resolves to the global value
`[10]` as the claim requires. -/
theorem makeEndpoint_static_fallthrough_throws :
    makeEndpoint bareEndpointOption globalStaticOnlyOptions 0 =
      .error "TypeError: cannot read properties of undefined" ∧
    getOptionArray
      [some [], some [], some [], some globalStaticOnlyOptions.props]
      "staticUpdateInterval" [DEFAULT_STATIC_DATA_UPDATE_INTERVAL] = .ok [10] :=
  ⟨rfl, rfl⟩

/-- Raw global options with nothing configured. -/
def emptyGlobalOptions : GlobalOptions :=
  { myVessel := none, otherVessels := none, props := [] }

/-- A raw endpoint entry with scalar position and static intervals
configured at the endpoint level. -/
def endpointOptionPS (p s : Nat) : EndpointOption :=
  { name := none, ipAddress := some "192.168.1.2", port := some 12345,
    myVessel := none, otherVessels := none,
    props := [("positionUpdateInterval", ConfigValue.scalar p),
              ("staticUpdateInterval", ConfigValue.scalar s)] }

/-- C9 counterexample: normalization accepts a static interval of 1
next to a position interval of 5: the produced endpoint has
`positionUpdateIntervals = [5]` and `staticUpdateIntervals = [1]`, so
at index 0 the position interval is nonzero yet the static interval is
smaller — no static-versus-position relation is established. -/
theorem makeEndpoint_no_cadence_check_cex :
    (makeEndpoint (endpointOptionPS 5 1) emptyGlobalOptions 0).map
      (fun e => (e.myVessel.positionUpdateIntervals, e.myVessel.staticUpdateIntervals)) =
      .ok ([5], [1]) ∧
    ¬((5 : Nat) = 0 ∨ (5 : Nat) ≤ 1) := by
  exact ⟨rfl, by decide⟩

/-- C9 amended: the normalizer performs no cross-check between the
static and position interval sequences: endpoint-level scalar values
are passed through unchanged as singleton sequences, whatever their
relative size. -/
theorem makeEndpoint_intervals_passthrough (p s : Nat) :
    (makeEndpoint (endpointOptionPS p s) emptyGlobalOptions 0).map
      (fun e => (e.myVessel.positionUpdateIntervals, e.myVessel.staticUpdateIntervals)) =
      .ok ([p], [s]) := by
  rfl

end AisReporter
